import Mathlib

/-!
Verification of the gopid rate generator (generator.go) and PID controller
(pid.go) against its specification.

Floating-point values (`float64`) are modelled as exact rationals `ℚ`;
`time.Duration` values are modelled as `Int` nanoseconds, and
`Duration.Seconds()` as division by 10^9 over `ℚ`.
-/

namespace GoPid

/-- The generator configuration (struct `Generator` in generator.go).
The handler is modelled only by its presence or absence (`Option Unit`),
since only the nil-check in `Start` depends on it.  `SleepPrecision` and
`SamplingPeriod` are `time.Duration` values in nanoseconds. -/
structure Generator where
  handler : Option Unit
  QPS : ℚ
  SmoothingFactor : ℚ
  SleepPrecision : Int
  SamplingPeriod : Int
deriving DecidableEq

/-- `DefaultGeneratorSmoothingFactor = 0.80` in generator.go. -/
def DefaultGeneratorSmoothingFactor : ℚ := 4 / 5

/-- `DefaultGeneratorSleepPrecision = 50 * time.Millisecond` (in ns). -/
def DefaultGeneratorSleepPrecision : Int := 50000000

/-- `DefaultGeneratorSamplingPeriod = time.Second` (in ns). -/
def DefaultGeneratorSamplingPeriod : Int := 1000000000

/-- `Duration.Seconds()`: nanoseconds to seconds over `ℚ`. -/
def secondsOfDuration (d : Int) : ℚ := (d : ℚ) / 1000000000

/-- The effective sampling period: `generator.SamplingPeriod`, with the
zero-value default substitution done at the top of `evaluate`. -/
def Generator.effSampling (g : Generator) : Int :=
  if g.SamplingPeriod = 0 then DefaultGeneratorSamplingPeriod else g.SamplingPeriod

/-- The effective smoothing factor: `generator.SmoothingFactor`, with the
zero-value default substitution done in `run`. -/
def Generator.effSmoothing (g : Generator) : ℚ :=
  if g.SmoothingFactor = 0 then DefaultGeneratorSmoothingFactor else g.SmoothingFactor

/-- The effective sleep precision: `generator.SleepPrecision`, with the
zero-value default substitution done in `run`. -/
def Generator.effPrecision (g : Generator) : Int :=
  if g.SleepPrecision = 0 then DefaultGeneratorSleepPrecision else g.SleepPrecision

/-- The result triple `(b, n, w)` of `Generator.evaluate`. -/
structure EvalResult where
  b : Int
  n : Int
  w : ℚ
deriving DecidableEq

/-- `Generator.evaluate` from generator.go, lines 64-87:
`b = int(math.Ceil(qps*r))` when `r > 0`, else `b = 1`;
`w = float64(b)/qps - r`; `n = int(math.Ceil(s/(r+w)))`.
`int(math.Ceil(x))` is `Int.ceil` over `ℚ` (the ceiling is already
integral, so the Go int conversion is exact). -/
def Generator.evaluate (g : Generator) (r : ℚ) : EvalResult :=
  let s : ℚ := secondsOfDuration g.effSampling
  let qps : ℚ := g.QPS
  let b : Int := if 0 < r then ⌈qps * r⌉ else 1
  let w : ℚ := (b : ℚ) / qps - r
  let n : Int := ⌈s / (r + w)⌉
  ⟨b, n, w⟩

/-- `Generator.Start` from generator.go, lines 56-62.  The Go code panics
with this message when `Handler == nil`, before `go generator.run()` is
reached; otherwise it spawns the run loop and returns.  `Except.error`
models the panic (nothing spawned), `Except.ok ()` models the successful
asynchronous launch of `run`. -/
def Generator.Start (g : Generator) : Except String Unit :=
  if g.handler = none then Except.error "generator requires an handler"
  else Except.ok ()

/-- Go float-to-int conversion: truncation toward zero. -/
def truncToInt (q : ℚ) : Int := if 0 ≤ q then ⌊q⌋ else ⌈q⌉

/-- `time.Duration(1e9*w) * time.Nanosecond` from generator.go line 163:
the per-call wait (seconds, `ℚ`) converted to a nanosecond duration. -/
def durationOfSeconds (w : ℚ) : Int := truncToInt (1000000000 * w)

/-- The sleep pattern of one batch executed by a lane (generator.go,
lines 113-121): starting from accumulated budget `dt`, perform `n`
iterations of `dt += d; if dt >= prec then sleep dt; dt = 0`.  Returns
the list of arguments passed to the in-loop `time.Sleep` calls, paired
with the leftover budget `dt` passed to the final flush `time.Sleep`. -/
def laneLoop (d prec : Int) : Nat → Int → List Int × Int
  | 0, dt => ([], dt)
  | n + 1, dt =>
    if prec ≤ dt + d then
      ((dt + d) :: (laneLoop d prec n 0).1, (laneLoop d prec n 0).2)
    else
      laneLoop d prec n (dt + d)

/-- Arguments of the in-loop `time.Sleep` calls of a batch of `n` requests
with per-call budget `d`, starting from budget 0. -/
def laneLoopSleeps (n : Nat) (d prec : Int) : List Int := (laneLoop d prec n 0).1

/-- The leftover budget flushed by the final `time.Sleep(dt)` after the loop
(generator.go line 123). -/
def laneFinalBudget (n : Nat) (d prec : Int) : Int := (laneLoop d prec n 0).2

/-- All arguments a lane passes to `time.Sleep` for one batch: the in-loop
coalesced sleeps followed by the final flush. -/
def laneSleeps (n : Nat) (d prec : Int) : List Int :=
  laneLoopSleeps n d prec ++ [laneFinalBudget n d prec]

/-- Go `time.Sleep` semantics: a negative or zero duration returns
immediately, so the time actually slept is `max x 0`. -/
def effectiveSleep (x : Int) : Int := max x 0

/-- The controller-visible state of the `run` loop (generator.go,
lines 139-191): the latency estimate `r`, the latest rate-model outputs
`batches`, `n`, `w`, the in-flight lane count `working`, and the period
totals `count`, `totalRequests`, `totalDuration` (duration in ns). -/
structure RunState where
  r : ℚ
  batches : Int
  n : Int
  w : ℚ
  working : Int
  count : Nat
  totalRequests : Int
  totalDuration : Int
deriving DecidableEq

/-- An event consumed by the `select` of the run loop: a batch completion
report (with its request count and measured duration in ns), or a tick. -/
inductive Event where
  | completion (requests : Int) (duration : Int)
  | tick
deriving DecidableEq

/-- State right after bootstrap (generator.go lines 139-146): `r` is the
first measured duration, `(batches, n, w)` come from `evaluate r`, no lane
is in flight and the period totals are zero. -/
def initState (g : Generator) (r0 : ℚ) : RunState :=
  { r := r0
    batches := (g.evaluate r0).b
    n := (g.evaluate r0).n
    w := (g.evaluate r0).w
    working := 0
    count := 0
    totalRequests := 0
    totalDuration := 0 }

/-- Net effect of the dispatch loop `for working < batches` (generator.go
lines 156-166): `working` is topped up to `batches`; when `working` is
already at or above `batches`, nothing is dispatched. -/
def dispatchFull (s : RunState) : RunState :=
  if s.working < s.batches then { s with working := s.batches } else s

/-- The completion case of the `select` (generator.go lines 169-175):
increment `count`, accumulate the report into the period totals, and
decrement the in-flight count. -/
def handleCompletion (reqs dur : Int) (s : RunState) : RunState :=
  { s with
    count := s.count + 1
    totalRequests := s.totalRequests + reqs
    totalDuration := s.totalDuration + dur
    working := s.working - 1 }

/-- The tick case of the `select` (generator.go lines 177-189): a no-op
when `count == 0`; otherwise blend the observed per-call latency into `r`,
re-run `evaluate`, and reset the period totals. -/
def handleTick (g : Generator) (s : RunState) : RunState :=
  if s.count = 0 then s
  else
    let m := g.effSmoothing
    let r2 := m * s.r +
      (1 - m) * (secondsOfDuration s.totalDuration / (s.totalRequests : ℚ) - s.w)
    let e := g.evaluate r2
    { s with
      r := r2
      batches := e.b
      n := e.n
      w := e.w
      count := 0
      totalRequests := 0
      totalDuration := 0 }

/-- One `select` arm of the run loop. -/
def handleEvent (g : Generator) (e : Event) (s : RunState) : RunState :=
  match e with
  | .completion reqs dur => handleCompletion reqs dur s
  | .tick => handleTick g s

/-- One full iteration of the run loop: top up the in-flight lanes, then
consume one event. -/
def loopStep (g : Generator) (s : RunState) (e : Event) : RunState :=
  handleEvent g e (dispatchFull s)

/-- The run loop folded over a finite list of events from the bootstrap
state: every state of the form `run g r0 events` is reachable. -/
def run (g : Generator) (r0 : ℚ) (events : List Event) : RunState :=
  events.foldl (loopStep g) (initState g r0)

/-- The exponential smoothing update of the tick case (generator.go
line 183): `r = m*r + (1-m)*observed`. -/
def smoothingUpdate (m r observed : ℚ) : ℚ := m * r + (1 - m) * observed

/-- The latency estimate after `k` smoothing updates fed the constant
observed sample `t`. -/
def rSeq (m t r0 : ℚ) : Nat → ℚ
  | 0 => r0
  | k + 1 => smoothingUpdate m (rSeq m t r0 k) t

/-- The PID controller state (struct `PID` in pid.go; the moving-average
fields of the pid.go variant are measurement-only side state outside the
control law and are omitted). -/
structure PID where
  Kp : ℚ
  Ki : ℚ
  Kd : ℚ
  Target : ℚ
  Output : ℚ
  MinOutput : ℚ
  MaxOutput : ℚ
  delta : ℚ
  integral : ℚ
  prevTarget : ℚ
deriving DecidableEq

/-- `PID.Step` from pid.go, lines 55-88.  `dt` is in seconds
(`dt.Seconds()` in the code; the Go `dt == 0` test corresponds to
`dt = 0` seconds since durations have nanosecond granularity).  Returns
the output and the updated controller state. -/
def PID.Step (c : PID) (value dt : ℚ) : ℚ × PID :=
  if dt = 0 then (c.Output, c)
  else
    let delta := c.Target - value
    let step := dt
    let integral0 := if c.Target ≠ c.prevTarget then 0 else c.integral
    let integral1 :=
      if (delta < 0 ∧ c.MinOutput < c.Output) ∨ (0 < delta ∧ c.Output < c.MaxOutput)
      then integral0 + delta * step
      else integral0
    let derivative := (delta - c.delta) / step
    let output :=
      min c.MaxOutput (max c.MinOutput (c.Kp * delta + c.Ki * integral1 + c.Kd * derivative))
    (output,
      { c with
        Output := output
        delta := delta
        integral := integral1
        prevTarget := c.Target })

/-- A generator with handler present, QPS 2 and all defaults, used to
instantiate theorems at concrete inputs. -/
def gW : Generator := ⟨some (), 2, 0, 0, 0⟩

/-- The generator of the concrete run-loop trace below: QPS 1, smoothing
factor 1/2, explicit default precision and sampling period. -/
def gEx : Generator := ⟨some (), 1, 1 / 2, 50000000, 1000000000⟩

/-- A concrete mid-period state with one completed batch, used to
instantiate the tick-recalibration theorem. -/
def sTick : RunState := ⟨1, 1, 1, 0, 0, 1, 1, 1000000000⟩

/-- A concrete state with no completed batch this period, used to
instantiate the idle-tick theorem. -/
def sIdle : RunState := ⟨1, 1, 1, 0, 1, 0, 0, 0⟩

/-- A concrete state with fewer in-flight lanes than batches, used to
instantiate the dispatch theorem. -/
def sDispatch : RunState := ⟨1, 3, 1, 0, 1, 0, 0, 0⟩

/-- A concrete PID state used to instantiate the step theorem. -/
def pidW : PID := ⟨1, 1, 1, 1, 0, -10, 10, 0, 0, 0⟩

/-- Claim C1: for qps > 0 and sampling period s > 0, `evaluate` returns
`b = ceil(qps*r)` when `r > 0` and `b = 1` when `r = 0`, with
`w = b/qps - r` and `n = ceil(s/(r+w))`. -/
theorem evaluate_matches_rate_model (g : Generator) (r : ℚ)
    (_hq : 0 < g.QPS) (_hs : 0 < secondsOfDuration g.effSampling) :
    (0 < r → (g.evaluate r).b = ⌈g.QPS * r⌉) ∧
    (r = 0 → (g.evaluate r).b = 1) ∧
    (g.evaluate r).w = ((g.evaluate r).b : ℚ) / g.QPS - r ∧
    (g.evaluate r).n =
      ⌈secondsOfDuration g.effSampling / (r + (g.evaluate r).w)⌉ := by
  refine ⟨fun h => ?_, fun h => ?_, rfl, rfl⟩
  · show (if 0 < r then ⌈g.QPS * r⌉ else 1) = ⌈g.QPS * r⌉
    rw [if_pos h]
  · show (if 0 < r then ⌈g.QPS * r⌉ else 1) = 1
    rw [if_neg]
    rw [h]
    exact lt_irrefl 0

/-- Witness for C1: the rate-model equations hold at `gW` and `r = 3/2`. -/
theorem evaluate_matches_rate_model_witness :
    (0 < gW.QPS ∧ 0 < secondsOfDuration gW.effSampling) ∧
    ((0 < (3 / 2 : ℚ) → (gW.evaluate (3 / 2)).b = ⌈gW.QPS * (3 / 2)⌉) ∧
     ((3 / 2 : ℚ) = 0 → (gW.evaluate (3 / 2)).b = 1) ∧
     (gW.evaluate (3 / 2)).w = ((gW.evaluate (3 / 2)).b : ℚ) / gW.QPS - 3 / 2 ∧
     (gW.evaluate (3 / 2)).n =
       ⌈secondsOfDuration gW.effSampling / (3 / 2 + (gW.evaluate (3 / 2)).w)⌉) :=
  ⟨⟨by norm_num [gW],
    by norm_num [secondsOfDuration, Generator.effSampling, gW,
      DefaultGeneratorSamplingPeriod]⟩,
   evaluate_matches_rate_model gW (3 / 2) (by norm_num [gW])
     (by norm_num [secondsOfDuration, Generator.effSampling, gW,
       DefaultGeneratorSamplingPeriod])⟩

/-- Claim C2: on a tick with `count > 0`, the controller sets
`r_new = m*r_old + (1-m)*((total_duration/total_requests) - w)`, recomputes
`b, n, w` by re-running `evaluate` on `r_new`, keeps `working`, and resets
the period totals to zero. -/
theorem tick_recalibrates (g : Generator) (s : RunState) (h : s.count ≠ 0) :
    (handleEvent g Event.tick s).r =
      g.effSmoothing * s.r + (1 - g.effSmoothing) *
        (secondsOfDuration s.totalDuration / (s.totalRequests : ℚ) - s.w) ∧
    (handleEvent g Event.tick s).batches =
      (g.evaluate (handleEvent g Event.tick s).r).b ∧
    (handleEvent g Event.tick s).n =
      (g.evaluate (handleEvent g Event.tick s).r).n ∧
    (handleEvent g Event.tick s).w =
      (g.evaluate (handleEvent g Event.tick s).r).w ∧
    (handleEvent g Event.tick s).working = s.working ∧
    (handleEvent g Event.tick s).count = 0 ∧
    (handleEvent g Event.tick s).totalRequests = 0 ∧
    (handleEvent g Event.tick s).totalDuration = 0 := by
  have he : handleEvent g Event.tick s = handleTick g s := rfl
  rw [he]
  unfold handleTick
  rw [if_neg h]
  exact ⟨rfl, rfl, rfl, rfl, rfl, rfl, rfl, rfl⟩

/-- Witness for C2: the tick update equations hold at `gW` and `sTick`. -/
theorem tick_recalibrates_witness :
    sTick.count ≠ 0 ∧
    ((handleEvent gW Event.tick sTick).r =
      gW.effSmoothing * sTick.r + (1 - gW.effSmoothing) *
        (secondsOfDuration sTick.totalDuration / (sTick.totalRequests : ℚ) - sTick.w) ∧
    (handleEvent gW Event.tick sTick).batches =
      (gW.evaluate (handleEvent gW Event.tick sTick).r).b ∧
    (handleEvent gW Event.tick sTick).n =
      (gW.evaluate (handleEvent gW Event.tick sTick).r).n ∧
    (handleEvent gW Event.tick sTick).w =
      (gW.evaluate (handleEvent gW Event.tick sTick).r).w ∧
    (handleEvent gW Event.tick sTick).working = sTick.working ∧
    (handleEvent gW Event.tick sTick).count = 0 ∧
    (handleEvent gW Event.tick sTick).totalRequests = 0 ∧
    (handleEvent gW Event.tick sTick).totalDuration = 0) :=
  ⟨by decide, tick_recalibrates gW sTick (by decide)⟩

/-- Claim C3 (amended): the dispatch step never dispatches when
`working >= batches` (it leaves the state unchanged) and otherwise only
tops `working` up to `batches`, so a dispatch never pushes `working`
beyond the latest `b`.  The global invariant `working <= b` of the
original claim fails: a tick can lower `b` below the current in-flight
count (see the counterexample). -/
theorem dispatch_tops_up_only (s : RunState) :
    (dispatchFull s).working = max s.working s.batches ∧
    (s.batches ≤ s.working → dispatchFull s = s) := by
  unfold dispatchFull
  split_ifs with h
  · refine ⟨?_, fun hb => absurd h (not_lt.mpr hb)⟩
    show s.batches = max s.working s.batches
    exact (max_eq_right h.le).symm
  · exact ⟨(max_eq_left (not_lt.mp h)).symm, fun _ => rfl⟩

/-- Witness for C3: the dispatch properties hold at `sDispatch`. -/
theorem dispatch_tops_up_only_witness :
    (dispatchFull sDispatch).working = max sDispatch.working sDispatch.batches ∧
    (sDispatch.batches ≤ sDispatch.working → dispatchFull sDispatch = sDispatch) :=
  dispatch_tops_up_only sDispatch

/-- Counterexample for C3 as stated: a reachable state of the run loop in
which the in-flight lane count exceeds the `b` of the most recent
`evaluate`.  With QPS 1 and initial latency sample 4 s, four lanes are
dispatched; one completes in 1 ns, the tick drops the estimate to about
2 s and `evaluate` returns `b = 3`, while four lanes are still in
flight. -/
theorem working_can_exceed_latest_batches :
    (run gEx 4 [Event.completion 1 1, Event.tick]).batches <
      (run gEx 4 [Event.completion 1 1, Event.tick]).working := by
  have hs1 : secondsOfDuration gEx.effSampling = 1 := by
    norm_num [secondsOfDuration, Generator.effSampling, gEx]
  have hb4 : ⌈gEx.QPS * (4 : ℚ)⌉ = 4 := Int.ceil_eq_iff.mpr (by norm_num [gEx])
  have he4 : gEx.evaluate 4 = (⟨4, 1, 0⟩ : EvalResult) := by
    simp only [Generator.evaluate]
    rw [hs1, hb4, if_pos (by norm_num : (0 : ℚ) < 4)]
    simp only [EvalResult.mk.injEq]
    refine ⟨trivial, ?_, ?_⟩
    · exact Int.ceil_eq_iff.mpr (by norm_num [gEx])
    · norm_num [gEx]
  have h0 : initState gEx 4 = (⟨4, 4, 1, 0, 0, 0, 0, 0⟩ : RunState) := by
    simp only [initState, he4]
  have hd0 : dispatchFull (⟨4, 4, 1, 0, 0, 0, 0, 0⟩ : RunState) =
      (⟨4, 4, 1, 0, 4, 0, 0, 0⟩ : RunState) := by
    unfold dispatchFull
    rw [if_pos (by decide : ((⟨4, 4, 1, 0, 0, 0, 0, 0⟩ : RunState)).working <
      ((⟨4, 4, 1, 0, 0, 0, 0, 0⟩ : RunState)).batches)]
  have hc : handleCompletion 1 1 (⟨4, 4, 1, 0, 4, 0, 0, 0⟩ : RunState) =
      (⟨4, 4, 1, 0, 3, 1, 1, 1⟩ : RunState) := rfl
  have hd1 : dispatchFull (⟨4, 4, 1, 0, 3, 1, 1, 1⟩ : RunState) =
      (⟨4, 4, 1, 0, 4, 1, 1, 1⟩ : RunState) := by
    unfold dispatchFull
    rw [if_pos (by decide : ((⟨4, 4, 1, 0, 3, 1, 1, 1⟩ : RunState)).working <
      ((⟨4, 4, 1, 0, 3, 1, 1, 1⟩ : RunState)).batches)]
  have hb3 : ⌈gEx.QPS * (4000000001 / 2000000000 : ℚ)⌉ = 3 :=
    Int.ceil_eq_iff.mpr (by norm_num [gEx])
  have he2 : gEx.evaluate (4000000001 / 2000000000) =
      (⟨3, 1, 1999999999 / 2000000000⟩ : EvalResult) := by
    simp only [Generator.evaluate]
    rw [hs1, hb3, if_pos (by norm_num : (0 : ℚ) < 4000000001 / 2000000000)]
    simp only [EvalResult.mk.injEq]
    refine ⟨trivial, ?_, ?_⟩
    · exact Int.ceil_eq_iff.mpr (by norm_num [gEx])
    · norm_num [gEx]
  have hm : gEx.effSmoothing = 1 / 2 := by
    norm_num [Generator.effSmoothing, gEx]
  have hI : handleTick gEx (⟨4, 4, 1, 0, 4, 1, 1, 1⟩ : RunState) =
      (⟨4000000001 / 2000000000, 3, 1, 1999999999 / 2000000000, 4, 0, 0, 0⟩ : RunState) := by
    unfold handleTick
    rw [if_neg (by decide : ¬ ((⟨4, 4, 1, 0, 4, 1, 1, 1⟩ : RunState)).count = 0)]
    dsimp only
    rw [hm]
    have hr2 : (1 / 2 : ℚ) * 4 + (1 - 1 / 2) *
        (secondsOfDuration 1 / ((1 : Int) : ℚ) - 0) = 4000000001 / 2000000000 := by
      norm_num [secondsOfDuration]
    rw [hr2, he2]
  have hrun : run gEx 4 [Event.completion 1 1, Event.tick] =
      (⟨4000000001 / 2000000000, 3, 1, 1999999999 / 2000000000, 4, 0, 0, 0⟩ : RunState) := by
    unfold run
    simp only [List.foldl]
    unfold loopStep
    rw [h0, hd0]
    have hev1 : handleEvent gEx (Event.completion 1 1) (⟨4, 4, 1, 0, 4, 0, 0, 0⟩ : RunState) =
        handleCompletion 1 1 (⟨4, 4, 1, 0, 4, 0, 0, 0⟩ : RunState) := rfl
    rw [hev1, hc, hd1]
    have hev2 : handleEvent gEx Event.tick (⟨4, 4, 1, 0, 4, 1, 1, 1⟩ : RunState) =
        handleTick gEx (⟨4, 4, 1, 0, 4, 1, 1, 1⟩ : RunState) := rfl
    rw [hev2, hI]
  rw [hrun]
  show (3 : Int) < 4
  decide

/-- Every in-loop sleep argument of a lane is at least the precision
threshold, whatever the starting budget. -/
theorem laneLoop_sleeps_ge (d prec : Int) :
    ∀ (n : Nat) (dt : Int), ∀ x ∈ (laneLoop d prec n dt).1, prec ≤ x := by
  intro n
  induction n with
  | zero =>
    intro dt x hx
    simp [laneLoop] at hx
  | succ n ih =>
    intro dt x hx
    simp only [laneLoop] at hx
    split at hx
    · rcases List.mem_cons.mp hx with h1 | h1
      · subst h1
        assumption
      · exact ih 0 x h1
    · exact ih (dt + d) x hx

/-- With a positive precision, a non-positive per-call budget and a
non-positive starting budget, a lane performs no in-loop sleep and its
leftover flush budget stays non-positive. -/
theorem laneLoop_nonpos (d prec : Int) (hp : 0 < prec) (hd : d ≤ 0) :
    ∀ (n : Nat) (dt : Int), dt ≤ 0 →
      (laneLoop d prec n dt).1 = [] ∧ (laneLoop d prec n dt).2 ≤ 0 := by
  intro n
  induction n with
  | zero =>
    intro dt h
    exact ⟨rfl, h⟩
  | succ n ih =>
    intro dt h
    have hdt : dt + d ≤ 0 := add_nonpos h hd
    have hlt : ¬ prec ≤ dt + d := not_le.mpr (lt_of_le_of_lt hdt hp)
    simp only [laneLoop, if_neg hlt]
    exact ih (dt + d) hdt

/-- Claim C4: for any computed wait-per-call `w` (negative included) and
positive sleep precision, every in-loop sleep is only triggered once the
accumulated budget reaches the precision threshold, every sleep actually
performed is non-negative, and a non-positive `w` leads to no-op sleeps
only. -/
theorem lane_sleep_safe (w : ℚ) (n : Nat) (prec : Int) (hp : 0 < prec) :
    (∀ x ∈ laneLoopSleeps n (durationOfSeconds w) prec, prec ≤ x) ∧
    (∀ x ∈ laneSleeps n (durationOfSeconds w) prec, 0 ≤ effectiveSleep x) ∧
    (w ≤ 0 → ∀ x ∈ laneSleeps n (durationOfSeconds w) prec, effectiveSleep x = 0) := by
  refine ⟨laneLoop_sleeps_ge (durationOfSeconds w) prec n 0, ?_, ?_⟩
  · intro x _
    exact le_max_right x 0
  · intro hw x hx
    have hq : (1000000000 : ℚ) * w ≤ 0 := by
      have h1 := mul_le_mul_of_nonneg_left hw (by norm_num : (0 : ℚ) ≤ 1000000000)
      simpa using h1
    have hd : durationOfSeconds w ≤ 0 := by
      unfold durationOfSeconds truncToInt
      split_ifs with h0
      · have : ⌊(1000000000 : ℚ) * w⌋ ≤ ⌊(0 : ℚ)⌋ := Int.floor_le_floor hq
        simpa using this
      · exact Int.ceil_le.mpr (by exact_mod_cast hq)
    have h2 := laneLoop_nonpos (durationOfSeconds w) prec hp hd n 0 le_rfl
    unfold laneSleeps laneLoopSleeps laneFinalBudget at hx
    rw [h2.1] at hx
    simp only [List.nil_append, List.mem_singleton] at hx
    rw [hx]
    exact max_eq_right h2.2

/-- Witness for C4: the sleep-safety properties hold for `w = -1`,
`n = 3` and the default precision. -/
theorem lane_sleep_safe_witness :
    (0 : Int) < 50000000 ∧
    ((∀ x ∈ laneLoopSleeps 3 (durationOfSeconds (-1)) 50000000, (50000000 : Int) ≤ x) ∧
     (∀ x ∈ laneSleeps 3 (durationOfSeconds (-1)) 50000000, 0 ≤ effectiveSleep x) ∧
     ((-1 : ℚ) ≤ 0 →
       ∀ x ∈ laneSleeps 3 (durationOfSeconds (-1)) 50000000, effectiveSleep x = 0)) :=
  ⟨by decide, lane_sleep_safe (-1) 3 50000000 (by decide)⟩

/-- Claim C5: for `r >= 0` and `qps > 0`, the divisor `r + w` used to
compute `n` equals `b/qps` and is strictly positive. -/
theorem evaluate_divisor_pos (g : Generator) (r : ℚ)
    (_hr : 0 ≤ r) (hq : 0 < g.QPS) :
    r + (g.evaluate r).w = ((g.evaluate r).b : ℚ) / g.QPS ∧
    0 < r + (g.evaluate r).w := by
  have hw : (g.evaluate r).w = ((g.evaluate r).b : ℚ) / g.QPS - r := rfl
  have hb : 0 < (g.evaluate r).b := by
    show 0 < (if 0 < r then ⌈g.QPS * r⌉ else 1)
    split_ifs with h
    · exact Int.ceil_pos.mpr (mul_pos hq h)
    · exact one_pos
  constructor
  · rw [hw]
    ring
  · rw [hw]
    have hpos : (0 : ℚ) < ((g.evaluate r).b : ℚ) / g.QPS :=
      div_pos (by exact_mod_cast hb) hq
    linarith

/-- Witness for C5: the divisor equations hold at `gW` and `r = 1/2`. -/
theorem evaluate_divisor_pos_witness :
    ((0 : ℚ) ≤ 1 / 2 ∧ 0 < gW.QPS) ∧
    ((1 / 2 : ℚ) + (gW.evaluate (1 / 2)).w = ((gW.evaluate (1 / 2)).b : ℚ) / gW.QPS ∧
     0 < (1 / 2 : ℚ) + (gW.evaluate (1 / 2)).w) :=
  ⟨⟨by norm_num, by norm_num [gW]⟩,
   evaluate_divisor_pos gW (1 / 2) (by norm_num) (by norm_num [gW])⟩

/-- Claim C6: `Start` panics exactly when the handler is nil, launching
nothing in that case; with a handler set it launches the run loop and
returns. -/
theorem start_panics_iff_no_handler (g : Generator) :
    (Generator.Start g = Except.error "generator requires an handler" ↔
      g.handler = none) ∧
    (g.handler ≠ none → Generator.Start g = Except.ok ()) := by
  unfold Generator.Start
  split_ifs with h
  · simp [h]
  · simp [h]

/-- Witness for C6: the start behaviour at the concrete generator `gW`. -/
theorem start_panics_iff_no_handler_witness :
    (Generator.Start gW = Except.error "generator requires an handler" ↔
      gW.handler = none) ∧
    (gW.handler ≠ none → Generator.Start gW = Except.ok ()) :=
  start_panics_iff_no_handler gW

/-- Claim C7: for a fixed true latency `t` and smoothing weight
`m` in (0, 1], the distance of the smoothed estimate to `t` is
non-increasing under repeated updates with constant observation `t`. -/
theorem smoothing_monotone_toward_truth (m t r0 : ℚ)
    (h0 : 0 < m) (h1 : m ≤ 1) (k : Nat) :
    |rSeq m t r0 (k + 1) - t| ≤ |rSeq m t r0 k - t| := by
  have key : rSeq m t r0 (k + 1) - t = m * (rSeq m t r0 k - t) := by
    show smoothingUpdate m (rSeq m t r0 k) t - t = m * (rSeq m t r0 k - t)
    unfold smoothingUpdate
    ring
  rw [key, abs_mul, abs_of_pos h0]
  exact mul_le_of_le_one_left (abs_nonneg _) h1

/-- Witness for C7: the distance shrinks at `m = 1/2`, `t = 2`, `r0 = 0`,
step 1. -/
theorem smoothing_monotone_toward_truth_witness :
    ((0 : ℚ) < 1 / 2 ∧ (1 / 2 : ℚ) ≤ 1) ∧
    |rSeq (1 / 2) 2 0 2 - 2| ≤ |rSeq (1 / 2) 2 0 1 - 2| :=
  ⟨⟨by norm_num, by norm_num⟩,
   smoothing_monotone_toward_truth (1 / 2) 2 0 (by norm_num) (by norm_num) 1⟩

/-- Claim C8: a tick with `count = 0` is a no-op: the whole controller
state (estimate, rate-model outputs, period totals) is unchanged. -/
theorem tick_noop_when_idle (g : Generator) (s : RunState) (h : s.count = 0) :
    handleEvent g Event.tick s = s := by
  have he : handleEvent g Event.tick s = handleTick g s := rfl
  rw [he]
  unfold handleTick
  rw [if_pos h]

/-- Witness for C8: the idle tick at `gW` and `sIdle` changes nothing. -/
theorem tick_noop_when_idle_witness :
    sIdle.count = 0 ∧ handleEvent gW Event.tick sIdle = sIdle :=
  ⟨rfl, tick_noop_when_idle gW sIdle rfl⟩

/-- Claim C9: for `dt ≠ 0`, `Step` returns
`Kp*delta + Ki*integral + Kd*derivative` clamped into
`[MinOutput, MaxOutput]` and stores it in `Output`; the integral is reset
to zero when the target changed since the previous call, and accumulates
`delta*dt` exactly when the output is not pegged against the clamp in the
saturating direction. -/
theorem pid_step_spec (c : PID) (value dt : ℚ) (h : dt ≠ 0) :
    (PID.Step c value dt).1 =
      min c.MaxOutput (max c.MinOutput
        (c.Kp * (c.Target - value) + c.Ki * (PID.Step c value dt).2.integral +
          c.Kd * ((c.Target - value - c.delta) / dt))) ∧
    (PID.Step c value dt).2.Output = (PID.Step c value dt).1 ∧
    (PID.Step c value dt).2.integral =
      (if (c.Target - value < 0 ∧ c.MinOutput < c.Output) ∨
          (0 < c.Target - value ∧ c.Output < c.MaxOutput)
       then (if c.Target ≠ c.prevTarget then 0 else c.integral) + (c.Target - value) * dt
       else (if c.Target ≠ c.prevTarget then 0 else c.integral)) := by
  unfold PID.Step
  rw [if_neg h]
  exact ⟨rfl, rfl, rfl⟩

/-- Witness for C9: the step equations at the concrete controller `pidW`
with `value = 0` and `dt = 1`. -/
theorem pid_step_spec_witness :
    (1 : ℚ) ≠ 0 ∧
    ((PID.Step pidW 0 1).1 =
      min pidW.MaxOutput (max pidW.MinOutput
        (pidW.Kp * (pidW.Target - 0) + pidW.Ki * (PID.Step pidW 0 1).2.integral +
          pidW.Kd * ((pidW.Target - 0 - pidW.delta) / 1))) ∧
    (PID.Step pidW 0 1).2.Output = (PID.Step pidW 0 1).1 ∧
    (PID.Step pidW 0 1).2.integral =
      (if (pidW.Target - 0 < 0 ∧ pidW.MinOutput < pidW.Output) ∨
          (0 < pidW.Target - 0 ∧ pidW.Output < pidW.MaxOutput)
       then (if pidW.Target ≠ pidW.prevTarget then 0 else pidW.integral) +
         (pidW.Target - 0) * 1
       else (if pidW.Target ≠ pidW.prevTarget then 0 else pidW.integral))) :=
  ⟨by norm_num, pid_step_spec pidW 0 1 (by norm_num)⟩

/-- Claim C10: for `r >= 0` and `qps > 0`, the wait `w` returned by
`evaluate` is non-negative, since `b >= qps*r` (and `b = 1` when
`r = 0`). -/
theorem evaluate_wait_nonneg (g : Generator) (r : ℚ)
    (hr : 0 ≤ r) (hq : 0 < g.QPS) :
    0 ≤ (g.evaluate r).w := by
  have hw : (g.evaluate r).w = ((g.evaluate r).b : ℚ) / g.QPS - r := rfl
  rw [hw, sub_nonneg]
  rcases eq_or_lt_of_le hr with h | h
  · have hnlt : ¬ 0 < r := by
      rw [← h]
      exact lt_irrefl 0
    have hb : (g.evaluate r).b = 1 := by
      show (if 0 < r then ⌈g.QPS * r⌉ else 1) = 1
      rw [if_neg hnlt]
    rw [hb, ← h]
    push_cast
    exact le_of_lt (div_pos one_pos hq)
  · have hb : (g.evaluate r).b = ⌈g.QPS * r⌉ := by
      show (if 0 < r then ⌈g.QPS * r⌉ else 1) = ⌈g.QPS * r⌉
      rw [if_pos h]
    rw [hb, le_div_iff₀ hq]
    calc r * g.QPS = g.QPS * r := mul_comm r g.QPS
    _ ≤ (⌈g.QPS * r⌉ : ℚ) := Int.le_ceil _

/-- Witness for C10: the wait is non-negative at `gW` and `r = 3/4`. -/
theorem evaluate_wait_nonneg_witness :
    ((0 : ℚ) ≤ 3 / 4 ∧ 0 < gW.QPS) ∧ 0 ≤ (gW.evaluate (3 / 4)).w :=
  ⟨⟨by norm_num, by norm_num [gW]⟩,
   evaluate_wait_nonneg gW (3 / 4) (by norm_num) (by norm_num [gW])⟩

end GoPid
